import Mathlib

/-!
Shallow embedding of the product-query-and-prompt-assembly pipeline of the
TEST_wise repository: the OpenFoodFacts search clients (`get_data` in
main.py, app2.py, app3.py, sl.py), the prompt assemblers (`OpenFoodFacts.LLM`
in src/main.py, `LLM` in app2.py and main.py, `generate_summary` in sl.py),
the summary generators, and the summary routes (`show_summary` in main.py and
app2.py).  Outbound HTTP calls are modelled by explicit outcome values; Python
exceptions are modelled with `Except`.
-/

/-- A Python value as it occurs in an OpenFoodFacts product dict: a string, or
a list of strings (tag lists such as `vitamins_tags` or `_keywords`). -/
inductive PyVal where
  | vstr (s : String)
  | vlist (xs : List String)
deriving DecidableEq

/-- Python `str()` rendering of a value, as an f-string interpolates it.
A list renders as its Python repr, e.g. a bracketed, comma-separated,
quoted sequence. -/
def PyVal.render : PyVal → String
  | .vstr s => s
  | .vlist xs =>
      let q := String.mk [Char.ofNat 39]
      "[" ++ String.intercalate ", " (xs.map (fun s => q ++ s ++ q)) ++ "]"

/-- Python truthiness of a value: a string is truthy iff nonempty, a list is
truthy iff nonempty. -/
def PyVal.truthy : PyVal → Bool
  | .vstr s => !s.data.isEmpty
  | .vlist xs => !xs.isEmpty

/-- A product record: the JSON object for one product as returned by the
search API, a dict from field name to value.  Lookup takes the first
matching key, as keys are unique in a Python dict. -/
abbrev Product := List (String × PyVal)

/-- Python `dict.get(key, default)`. -/
def dictGetD (p : Product) (k : String) (d : PyVal) : PyVal :=
  match p.find? (fun kv => kv.1 == k) with
  | some kv => kv.2
  | none => d

/-- Python `dict.get(key)` (default `None`). -/
def dictGetOpt (p : Product) (k : String) : Option PyVal :=
  (p.find? (fun kv => kv.1 == k)).map (·.2)

/-- Python `key in dict`. -/
def hasKey (p : Product) (k : String) : Bool :=
  (p.find? (fun kv => kv.1 == k)).isSome

/-- The Python conditional expression `v if v else filler` as it appears
inside the deeper f-string template: the rendering of `v` when `v` is truthy,
otherwise the filler sentence. -/
def pyCond (v : PyVal) (filler : String) : String :=
  if v.truthy then v.render else filler

/-- `prefOf pat l` holds when `pat` is a prefix of `l`. -/
def prefOf : List Char → List Char → Bool
  | [], _ => true
  | _ :: _, [] => false
  | a :: pa, b :: l => a == b && prefOf pa l

/-- `occursIn pat l` holds when `pat` occurs contiguously inside `l`. -/
def occursIn (pat : List Char) : List Char → Bool
  | [] => prefOf pat []
  | b :: l => prefOf pat (b :: l) || occursIn pat l

/-- The string `sub` occurs as a contiguous substring of `s`. -/
def containsStr (s sub : String) : Bool :=
  occursIn sub.data s.data

/-- A Python exception escaping one of the embedded functions. -/
inductive PyError where
  | valueError (msg : String)
  | keyError (key : String)
  | indexError
  | requestError (msg : String)
  | apiError (msg : String)
deriving DecidableEq

/-- The object returned by `model.generate_content`: only its `text` field is
used. -/
structure GenResponse where
  text : String
deriving DecidableEq

/-- Parsed JSON body of a search response: whether the `products` key is
present, and the product list under it when it is.  No other key is read by
any `get_data` variant. -/
structure SearchData where
  productsField : Option (List Product)
deriving DecidableEq

/-- Outcome of `requests.get` for the search call: either the request itself
raises (`requests.exceptions.RequestException`), or a response arrives with a
status code and a body whose JSON parse (`response.json()`) either raises
`ValueError` or yields the data. -/
inductive FetchOutcome where
  | transportError (msg : String)
  | response (statusCode : Nat) (body : Except String SearchData)

/-- Value returned by a `show_summary` route: either a JSON error payload or
the rendered summary page for the selected product. -/
inductive SummaryReturn where
  | errorPayload (msg : String)
  | page (summary : String) (product : Product)
deriving DecidableEq

/-- Python `dict.get` as a state-passing operation: it returns the looked-up
value together with the dict as it stands after the call; `dict.get` reads
and never mutates, so the dict after the call is the dict before it. -/
def dictGetD_st (p : Product) (k : String) (d : PyVal) : PyVal × Product :=
  (dictGetD p k d, p)

namespace OpenFoodFacts

/-- The simple-tone f-string of `OpenFoodFacts.LLM` (src/main.py), with its
four interpolated field renderings. -/
def simpleTemplate (name brand eco_score nutriscore_grade : String) : String :=
  "\n            The product name is " ++ name ++ ", brand is " ++ brand ++
    ", and its eco-score is " ++ eco_score ++ ", nutriscore grade is " ++
    nutriscore_grade ++
    ".\n            Provide a simple analysis including:\n            1. Positive aspects.\n            2. Negative aspects.\n            3. Health impact.\n            4. Environmental impact.\n            "

/-- The deeper-tone f-string of `OpenFoodFacts.LLM` (src/main.py): name and
brand are interpolated directly; the other eight fields go through the
Python conditional `v if v else filler`. -/
def deeperTemplate (name brand : String)
    (eco_score nutriscore_grade nova ingredients nutrients packaging vitamins keywords : PyVal) :
    String :=
  "\n    You are an AI assistant analyzing consumer products. Here are the details:\n    - Name: " ++ name ++
    "\n    - Brand: " ++ brand ++
    "\n    - EcoScore: " ++ pyCond eco_score "This product’s EcoScore is currently not specified, but its sustainability may vary based on its packaging and ingredients." ++
    "\n    - NutriScore: " ++ pyCond nutriscore_grade "The NutriScore for this product is not available at the moment, but it is crucial for evaluating health impacts." ++
    "\n    - NovaScore: " ++ pyCond nova "While the NovaScore isn’t specified, it’s essential to consider how processed a product is when evaluating its healthiness." ++
    "\n    - Ingredients: " ++ pyCond ingredients "This product contains a blend of ingredients typical for carbonated beverages." ++
    "\n    - Nutrients: " ++ pyCond nutrients "Nutritional information is valuable for understanding the health implications of this beverage." ++
    "\n    - Packaging: " ++ pyCond packaging "The packaging can significantly influence the product’s environmental footprint." ++
    "\n    - Vitamins: " ++ pyCond vitamins "Vitamins play an essential role in health, and their presence can affect overall wellbeing." ++
    "\n    - Keywords: " ++ pyCond keywords "Relevant keywords can highlight important features of the product." ++
    "\n\n    Please summarize the NutriScore, NovaScore, and EcoScore at the beginning and provide a description of each score as mentioned above. Your task is to provide an in-depth analysis of the product, focusing on:\n    1. Health impact: Explain how the ingredients, nutrients, and vitamins might affect human health.\n    2. Environmental impact: Assess the sustainability and environmental friendliness of the product, particularly its packaging.\n\n    Ensure your response is informative and clear, helping users make conscious decisions about their health and the environment. Do not explicitly mention if any data is unknown or unavailable; instead, provide context or general information when specific data points are missing.\n    "

/-- Prompt assembly of `OpenFoodFacts.LLM` (src/main.py): the field reads
with their `'Not mentioned'` defaults, followed by the tone dispatch
`if tone == 'simple'`. -/
def LLM_prompt (product : Product) (tone : String) : String :=
  let name := dictGetD product "product_name" (.vstr "Not mentioned")
  let brand := dictGetD product "brands" (.vstr "Not mentioned")
  let nutriscore_grade := dictGetD product "nutriscore_grade" (.vstr "Not mentioned")
  let eco_score := dictGetD product "ecoscore_grade" (.vstr "Not mentioned")
  let packaging := dictGetD product "packaging" (.vstr "Not mentioned")
  let ingredients := dictGetD product "ingredients_text" (.vstr "Not mentioned")
  let nutrients := dictGetD product "nutrients_data" (.vstr "Not mentioned")
  let image_url := dictGetD product "image_url" (.vstr "Not mentioned")
  let web_url := dictGetD product "url" (.vstr "Not mentioned")
  let barcode := dictGetOpt product "_id"
  let vitamins := dictGetD product "vitamins_tags" (.vstr "Not mentioned")
  let keywords := dictGetD product "_keywords" (.vstr "Not mentioned")
  let nova := dictGetD product "nova_groups_tags" (.vstr "Not mentioned")
  if tone = "simple" then
    simpleTemplate name.render brand.render eco_score.render nutriscore_grade.render
  else
    deeperTemplate name.render brand.render eco_score nutriscore_grade nova
      ingredients nutrients packaging vitamins keywords

/-- The prompt the simple branch of `OpenFoodFacts.LLM` produces for a
record. -/
def simplePromptOf (product : Product) : String :=
  simpleTemplate (dictGetD product "product_name" (.vstr "Not mentioned")).render
    (dictGetD product "brands" (.vstr "Not mentioned")).render
    (dictGetD product "ecoscore_grade" (.vstr "Not mentioned")).render
    (dictGetD product "nutriscore_grade" (.vstr "Not mentioned")).render

/-- The prompt the deeper (else) branch of `OpenFoodFacts.LLM` produces for a
record. -/
def deeperPromptOf (product : Product) : String :=
  deeperTemplate (dictGetD product "product_name" (.vstr "Not mentioned")).render
    (dictGetD product "brands" (.vstr "Not mentioned")).render
    (dictGetD product "ecoscore_grade" (.vstr "Not mentioned"))
    (dictGetD product "nutriscore_grade" (.vstr "Not mentioned"))
    (dictGetD product "nova_groups_tags" (.vstr "Not mentioned"))
    (dictGetD product "ingredients_text" (.vstr "Not mentioned"))
    (dictGetD product "nutrients_data" (.vstr "Not mentioned"))
    (dictGetD product "packaging" (.vstr "Not mentioned"))
    (dictGetD product "vitamins_tags" (.vstr "Not mentioned"))
    (dictGetD product "_keywords" (.vstr "Not mentioned"))

/-- `OpenFoodFacts.LLM` (src/main.py): assemble the prompt, make one
`model.generate_content` call — modelled by the oracle `gen`, which may
raise — and return `response.text`.  The function contains no try/except and
no retry: the single call's error, if any, is the function's error. -/
def LLM (product : Product) (tone : String)
    (gen : String → Except PyError GenResponse) : Except PyError String :=
  (gen (LLM_prompt product tone)).map GenResponse.text

/-- `OpenFoodFacts.product_info_extraction` (src/main.py): builds a fresh
four-field dict from the record, reading with `'Not mentioned'` defaults. -/
def product_info_extraction (product : Product) : Product :=
  let name := dictGetD product "product_name" (.vstr "Not mentioned")
  let brand := dictGetD product "brands" (.vstr "Not mentioned")
  let image_url := dictGetD product "image_url" (.vstr "Not mentioned")
  let web_url := dictGetD product "url" (.vstr "Not mentioned")
  [("name", name), ("brand", brand), ("image_url", image_url), ("web_url", web_url)]

/-- State-passing form of `OpenFoodFacts.product_info_extraction`: the record
is threaded through every `dict.get` the source performs, and returned next
to the result, so that its value after the call can be compared with its
value before. -/
def product_info_extraction_st (product : Product) : Product × Product :=
  let (name, product1) := dictGetD_st product "product_name" (.vstr "Not mentioned")
  let (brand, product2) := dictGetD_st product1 "brands" (.vstr "Not mentioned")
  let (image_url, product3) := dictGetD_st product2 "image_url" (.vstr "Not mentioned")
  let (web_url, product4) := dictGetD_st product3 "url" (.vstr "Not mentioned")
  ([("name", name), ("brand", brand), ("image_url", image_url), ("web_url", web_url)],
    product4)

/-- State-passing form of the prompt assembly of `OpenFoodFacts.LLM`: the
record is threaded through every `dict.get` the source performs. -/
def LLM_prompt_st (product : Product) (tone : String) : String × Product :=
  let (name, p1) := dictGetD_st product "product_name" (.vstr "Not mentioned")
  let (brand, p2) := dictGetD_st p1 "brands" (.vstr "Not mentioned")
  let (nutriscore_grade, p3) := dictGetD_st p2 "nutriscore_grade" (.vstr "Not mentioned")
  let (eco_score, p4) := dictGetD_st p3 "ecoscore_grade" (.vstr "Not mentioned")
  let (packaging, p5) := dictGetD_st p4 "packaging" (.vstr "Not mentioned")
  let (ingredients, p6) := dictGetD_st p5 "ingredients_text" (.vstr "Not mentioned")
  let (nutrients, p7) := dictGetD_st p6 "nutrients_data" (.vstr "Not mentioned")
  let (image_url, p8) := dictGetD_st p7 "image_url" (.vstr "Not mentioned")
  let (web_url, p9) := dictGetD_st p8 "url" (.vstr "Not mentioned")
  let (barcode, p10) := (dictGetOpt p9 "_id", p9)
  let (vitamins, p11) := dictGetD_st p10 "vitamins_tags" (.vstr "Not mentioned")
  let (keywords, p12) := dictGetD_st p11 "_keywords" (.vstr "Not mentioned")
  let (nova, p13) := dictGetD_st p12 "nova_groups_tags" (.vstr "Not mentioned")
  (if tone = "simple" then
    simpleTemplate name.render brand.render eco_score.render nutriscore_grade.render
  else
    deeperTemplate name.render brand.render eco_score nutriscore_grade nova
      ingredients nutrients packaging vitamins keywords, p13)

end OpenFoodFacts

namespace MainPy

/-- `get_data` of main.py: `response.json()` followed by
`data['products'][:5]` with no error handling of any kind — a transport error
propagates, a non-JSON body raises `ValueError`, and a body without a
`products` key raises `KeyError`. -/
def get_data (fetch : FetchOutcome) : Except PyError (List Product) :=
  match fetch with
  | .transportError msg => .error (.requestError msg)
  | .response _ body =>
    match body with
    | .error msg => .error (.valueError msg)
    | .ok data =>
      match data.productsField with
      | none => .error (.keyError "products")
      | some ps => .ok (ps.take 5)

/-- Prompt assembly of `LLM` in main.py: the nine field reads with their
`'Not mentioned'` defaults and the tone dispatch between the simple template
and the short deeper template. -/
def LLM_prompt (product : Product) (tone : String) : String :=
  let name := dictGetD product "product_name" (.vstr "Not mentioned")
  let brand := dictGetD product "brands" (.vstr "Not mentioned")
  let nutriscore_grade := dictGetD product "nutriscore_grade" (.vstr "Not mentioned")
  let eco_score := dictGetD product "ecoscore_grade" (.vstr "Not mentioned")
  let packaging := dictGetD product "packaging" (.vstr "Not mentioned")
  let ingredients := dictGetD product "ingredients_text" (.vstr "Not mentioned")
  let nutrients := dictGetD product "nutrients_data" (.vstr "Not mentioned")
  let image_url := dictGetD product "image_url" (.vstr "Not mentioned")
  let web_url := dictGetD product "url" (.vstr "Not mentioned")
  if tone = "simple" then
    "\n        The product name is " ++ name.render ++ ", brand is " ++ brand.render ++
      ", and its eco-score is " ++ eco_score.render ++ ", nutriscore grade is " ++
      nutriscore_grade.render ++
      ".\n        Provide a simple analysis including:\n        1. Positive aspects.\n        2. Negative aspects.\n        3. Health impact.\n        4. Environmental impact.\n        "
  else
    "\n        The product name is " ++ name.render ++ ", brand is " ++ brand.render ++
      ", and its eco-score is " ++ eco_score.render ++ ", nutriscore grade is " ++
      nutriscore_grade.render ++
      ".\n        Provide a deeper analysis including:\n        1. Positive aspects.\n        2. Negative aspects.\n        3. Health impact (positive and negative).\n        4. Environmental impact (packaging and ingredients).\n        5. Include relevant health articles if available.\n        "

/-- `LLM` of main.py: one `model.generate_content` call on the assembled
prompt, no try/except, no retry. -/
def LLM (product : Product) (tone : String)
    (gen : String → Except PyError GenResponse) : Except PyError String :=
  (gen (LLM_prompt product tone)).map GenResponse.text

/-- `show_summary` of main.py, after the search: `products` is the list the
route re-fetched for the request's query, and the route indexes it with
`products[product_id]` without any bounds check, so an out-of-range
`product_id` raises `IndexError`.  `gen` models `model.generate_content`,
`md` models `markdown2.markdown`. -/
def show_summary (products : List Product) (product_id : Nat) (tone : String)
    (gen : String → Except PyError GenResponse) (md : String → String) :
    Except PyError SummaryReturn :=
  if h : product_id < products.length then
    let selected_product := products.get ⟨product_id, h⟩
    (LLM selected_product tone gen).map
      (fun summary_text => .page (md summary_text) selected_product)
  else
    .error .indexError

end MainPy

namespace App2

/-- Value returned by `get_data` of app2.py: either the truncated product
list, or — on a non-success status, a non-JSON body, or a transport error —
a JSON error payload (not an empty list). -/
inductive SearchReturn where
  | products (ps : List Product)
  | errorPayload (msg : String)
deriving DecidableEq

/-- `get_data` of app2.py: inside a try/except, a non-200 status or an
unparsable body or a transport exception each return a JSON error payload;
on success the top 5 of `data.get('products', [])` are returned. -/
def get_data (fetch : FetchOutcome) : SearchReturn :=
  match fetch with
  | .transportError msg => .errorPayload ("An error occurred: " ++ msg)
  | .response statusCode body =>
    if statusCode ≠ 200 then
      .errorPayload ("Failed to fetch data from OpenFoodFacts API. Status code: " ++
        toString statusCode)
    else
      match body with
      | .error _ => .errorPayload "Invalid JSON response from OpenFoodFacts API"
      | .ok data => .products ((data.productsField.getD []).take 5)

/-- Prompt assembly of `LLM` in app2.py: identical to the one in main.py —
nine field reads with `'Not mentioned'` defaults, then the tone dispatch. -/
def LLM_prompt (product : Product) (tone : String) : String :=
  let name := dictGetD product "product_name" (.vstr "Not mentioned")
  let brand := dictGetD product "brands" (.vstr "Not mentioned")
  let nutriscore_grade := dictGetD product "nutriscore_grade" (.vstr "Not mentioned")
  let eco_score := dictGetD product "ecoscore_grade" (.vstr "Not mentioned")
  let packaging := dictGetD product "packaging" (.vstr "Not mentioned")
  let ingredients := dictGetD product "ingredients_text" (.vstr "Not mentioned")
  let nutrients := dictGetD product "nutrients_data" (.vstr "Not mentioned")
  let image_url := dictGetD product "image_url" (.vstr "Not mentioned")
  let web_url := dictGetD product "url" (.vstr "Not mentioned")
  if tone = "simple" then
    "\n        The product name is " ++ name.render ++ ", brand is " ++ brand.render ++
      ", and its eco-score is " ++ eco_score.render ++ ", nutriscore grade is " ++
      nutriscore_grade.render ++
      ".\n        Provide a simple analysis including:\n        1. Positive aspects.\n        2. Negative aspects.\n        3. Health impact.\n        4. Environmental impact.\n        "
  else
    "\n        The product name is " ++ name.render ++ ", brand is " ++ brand.render ++
      ", and its eco-score is " ++ eco_score.render ++ ", nutriscore grade is " ++
      nutriscore_grade.render ++
      ".\n        Provide a deeper analysis including:\n        1. Positive aspects.\n        2. Negative aspects.\n        3. Health impact (positive and negative).\n        4. Environmental impact (packaging and ingredients).\n        5. Include relevant health articles if available.\n        "

/-- The prompt the deeper (else) branch of app2.py's `LLM` produces. -/
def deeperPromptOf (product : Product) : String :=
  "\n        The product name is " ++ (dictGetD product "product_name" (.vstr "Not mentioned")).render ++
    ", brand is " ++ (dictGetD product "brands" (.vstr "Not mentioned")).render ++
    ", and its eco-score is " ++ (dictGetD product "ecoscore_grade" (.vstr "Not mentioned")).render ++
    ", nutriscore grade is " ++ (dictGetD product "nutriscore_grade" (.vstr "Not mentioned")).render ++
    ".\n        Provide a deeper analysis including:\n        1. Positive aspects.\n        2. Negative aspects.\n        3. Health impact (positive and negative).\n        4. Environmental impact (packaging and ingredients).\n        5. Include relevant health articles if available.\n        "

/-- `LLM` of app2.py: one `model.generate_content` call on the assembled
prompt, no try/except, no retry. -/
def LLM (product : Product) (tone : String)
    (gen : String → Except PyError GenResponse) : Except PyError String :=
  (gen (LLM_prompt product tone)).map GenResponse.text

/-- `show_summary` of app2.py: products come from the session
(`session.get('products')`, `none` when the session has no entry); a missing
entry or an out-of-range index is answered with a JSON error payload before
any further work; otherwise the selected product is summarised. -/
def show_summary (sessionProducts : Option (List Product)) (product_id : Nat)
    (tone : String) (gen : String → Except PyError GenResponse)
    (md : String → String) : Except PyError SummaryReturn :=
  match sessionProducts with
  | none => .ok (.errorPayload "Product not found or invalid product ID.")
  | some products =>
    if h : product_id ≥ products.length then
      .ok (.errorPayload "Product not found or invalid product ID.")
    else
      let selected_product := products.get ⟨product_id, by omega⟩
      (LLM selected_product tone gen).map
        (fun summary_text => .page (md summary_text) selected_product)

end App2

namespace App3

/-- `get_data` of app3.py: no try/except, so a transport error or a non-JSON
body raises; a parsed body with a missing or empty `products` list yields
`[]`; otherwise the records lacking a `product_name` field are dropped and
the first 5 of the remainder are returned. -/
def get_data (fetch : FetchOutcome) : Except PyError (List Product) :=
  match fetch with
  | .transportError msg => .error (.requestError msg)
  | .response _ body =>
    match body with
    | .error msg => .error (.valueError msg)
    | .ok data =>
      match data.productsField with
      | none => .ok []
      | some ps =>
        if ps.length = 0 then .ok []
        else .ok ((ps.filter (fun p => hasKey p "product_name")).take 5)

end App3

namespace Sl

/-- `get_data` of sl.py: same body as app3.py's — no error handling, empty or
keyless product data yields `[]`, then the name filter and the top-5
truncation. -/
def get_data (fetch : FetchOutcome) : Except PyError (List Product) :=
  match fetch with
  | .transportError msg => .error (.requestError msg)
  | .response _ body =>
    match body with
    | .error msg => .error (.valueError msg)
    | .ok data =>
      match data.productsField with
      | none => .ok []
      | some ps =>
        if ps.length = 0 then .ok []
        else .ok ((ps.filter (fun p => hasKey p "product_name")).take 5)

/-- Prompt assembly of `generate_summary` in sl.py: a single template with no
tone branch; the tone string itself is interpolated into the request
sentence. -/
def generate_summary_prompt (product : Product) (tone : String) : String :=
  let name := dictGetD product "product_name" (.vstr "Not mentioned")
  let brand := dictGetD product "brands" (.vstr "Not mentioned")
  let nutriscore_grade := dictGetD product "nutriscore_grade" (.vstr "Not mentioned")
  let eco_score := dictGetD product "ecoscore_grade" (.vstr "Not mentioned")
  let packaging := dictGetD product "packaging" (.vstr "Not mentioned")
  let ingredients := dictGetD product "ingredients_text" (.vstr "Not mentioned")
  let nutrients := dictGetD product "nutriments" (.vstr "Not mentioned")
  let nova := dictGetD product "nova_groups_tags" (.vstr "Not mentioned")
  "\n    You are an AI assistant analyzing consumer products. Here are the details:\n    - Name: " ++ name.render ++
    "\n    - Brand: " ++ brand.render ++
    "\n    - EcoScore: " ++ eco_score.render ++
    "\n    - NutriScore: " ++ nutriscore_grade.render ++
    "\n    - NovaScore: " ++ nova.render ++
    "\n    - Ingredients: " ++ ingredients.render ++
    "\n    - Nutrients: " ++ nutrients.render ++
    "\n    - Packaging: " ++ packaging.render ++
    "\n\n    Please provide a " ++ tone ++
    " analysis including:\n    1. Positive aspects of the product.\n    2. Negative aspects of the product.\n    3. Health impact.\n    4. Environmental impact.\n    "

/-- State-passing form of the prompt assembly of sl.py's `generate_summary`:
the record is threaded through every `dict.get` the source performs. -/
def generate_summary_prompt_st (product : Product) (tone : String) : String × Product :=
  let (name, p1) := dictGetD_st product "product_name" (.vstr "Not mentioned")
  let (brand, p2) := dictGetD_st p1 "brands" (.vstr "Not mentioned")
  let (nutriscore_grade, p3) := dictGetD_st p2 "nutriscore_grade" (.vstr "Not mentioned")
  let (eco_score, p4) := dictGetD_st p3 "ecoscore_grade" (.vstr "Not mentioned")
  let (packaging, p5) := dictGetD_st p4 "packaging" (.vstr "Not mentioned")
  let (ingredients, p6) := dictGetD_st p5 "ingredients_text" (.vstr "Not mentioned")
  let (nutrients, p7) := dictGetD_st p6 "nutriments" (.vstr "Not mentioned")
  let (nova, p8) := dictGetD_st p7 "nova_groups_tags" (.vstr "Not mentioned")
  ("\n    You are an AI assistant analyzing consumer products. Here are the details:\n    - Name: " ++ name.render ++
    "\n    - Brand: " ++ brand.render ++
    "\n    - EcoScore: " ++ eco_score.render ++
    "\n    - NutriScore: " ++ nutriscore_grade.render ++
    "\n    - NovaScore: " ++ nova.render ++
    "\n    - Ingredients: " ++ ingredients.render ++
    "\n    - Nutrients: " ++ nutrients.render ++
    "\n    - Packaging: " ++ packaging.render ++
    "\n\n    Please provide a " ++ tone ++
    " analysis including:\n    1. Positive aspects of the product.\n    2. Negative aspects of the product.\n    3. Health impact.\n    4. Environmental impact.\n    ", p8)

end Sl

/-- The spec's description of the search result ("an ordered sequence of up
to 5 ProductRecords ... first 5 returned by the external API, optionally
filtered to entries that have a name field"), stated as a function of the
product list the external API returned. -/
def specSearchSelect (ps : List Product) : List Product :=
  (ps.filter (fun p => hasKey p "product_name")).take 5

theorem prefOf_append (pat s t : List Char) (h : prefOf pat s = true) :
    prefOf pat (s ++ t) = true := by
  induction pat generalizing s with
  | nil => rfl
  | cons a pa ih =>
    cases s with
    | nil => simp [prefOf] at h
    | cons b l =>
      simp only [prefOf, Bool.and_eq_true] at h
      simp only [List.cons_append, prefOf, Bool.and_eq_true]
      exact ⟨h.1, ih l h.2⟩

theorem prefOf_self_append (pat t : List Char) : prefOf pat (pat ++ t) = true := by
  induction pat with
  | nil => rfl
  | cons a pa ih =>
    simp only [List.cons_append, prefOf, Bool.and_eq_true]
    exact ⟨beq_self_eq_true a, ih⟩

theorem occursIn_nil (l : List Char) : occursIn [] l = true := by
  cases l with
  | nil => rfl
  | cons b t => simp [occursIn, prefOf]

theorem occursIn_append_right (pat s t : List Char) (h : occursIn pat t = true) :
    occursIn pat (s ++ t) = true := by
  induction s with
  | nil => exact h
  | cons b l ih =>
    show occursIn pat (b :: (l ++ t)) = true
    simp only [occursIn, Bool.or_eq_true]
    exact Or.inr ih

theorem occursIn_append_left (pat s t : List Char) (h : occursIn pat s = true) :
    occursIn pat (s ++ t) = true := by
  induction s with
  | nil =>
    cases pat with
    | nil => exact occursIn_nil t
    | cons a pa => simp [occursIn, prefOf] at h
  | cons b l ih =>
    show occursIn pat (b :: (l ++ t)) = true
    simp only [occursIn, Bool.or_eq_true] at h ⊢
    rcases h with h | h
    · exact Or.inl (prefOf_append pat (b :: l) t h)
    · exact Or.inr (ih h)

theorem occursIn_self (pat : List Char) : occursIn pat pat = true := by
  cases pat with
  | nil => exact occursIn_nil []
  | cons a pa =>
    show occursIn (a :: pa) (a :: pa) = true
    simp only [occursIn, Bool.or_eq_true]
    left
    have := prefOf_self_append (a :: pa) []
    rwa [List.append_nil] at this

theorem data_append (s t : String) : (s ++ t).data = s.data ++ t.data := rfl

theorem containsStr_append_right (s t sub : String) (h : containsStr t sub = true) :
    containsStr (s ++ t) sub = true := by
  unfold containsStr at h ⊢
  rw [data_append]
  exact occursIn_append_right _ _ _ h

theorem containsStr_append_left (s t sub : String) (h : containsStr s sub = true) :
    containsStr (s ++ t) sub = true := by
  unfold containsStr at h ⊢
  rw [data_append]
  exact occursIn_append_left _ _ _ h

theorem containsStr_append_self (s sub : String) : containsStr (s ++ sub) sub = true := by
  unfold containsStr
  rw [data_append]
  exact occursIn_append_right _ _ _ (occursIn_self sub.data)

theorem dictGetD_eq_default (p : Product) (k : String) (d : PyVal)
    (h : hasKey p k = false) : dictGetD p k d = d := by
  unfold hasKey at h
  unfold dictGetD
  cases hf : List.find? (fun kv => kv.1 == k) p with
  | none => rfl
  | some kv => rw [hf] at h; simp at h

theorem pyCond_notMentioned (filler : String) :
    pyCond (PyVal.vstr "Not mentioned") filler = "Not mentioned" := rfl

theorem render_notMentioned : (PyVal.vstr "Not mentioned").render = "Not mentioned" := rfl

set_option maxRecDepth 100000

/-- Claim C1, counterexample: on the empty record (every field absent) with
tone "deeper", the assembled prompt of `OpenFoodFacts.LLM` does contain the
sentinel "Not mentioned", and the explanatory filler sentence for the absent
eco-score field is not substituted — the `.get` default `'Not mentioned'` is
truthy, so the `v if v else filler` conditional keeps it.  This contradicts
the claim that the deeper prompt replaces absent fields by filler text
instead of the sentinel. -/
theorem c1_counterexample :
    containsStr (OpenFoodFacts.LLM_prompt [] "deeper") "Not mentioned" = true ∧
    containsStr (OpenFoodFacts.LLM_prompt [] "deeper")
      "This product’s EcoScore is currently not specified" = false :=
  ⟨by decide, by decide⟩

/-- Claim C1, amended: for every record in which the eco-score field is
absent, the assembled prompt contains the sentinel "Not mentioned" under the
simple tone and under the deeper tone alike (in `OpenFoodFacts.LLM` of
src/main.py and in `LLM` of app2.py); the deeper template's filler text is
substituted only for a field that is present with a falsy value, never for
an absent one. -/
theorem c1_amended (p : Product) (h : hasKey p "ecoscore_grade" = false) :
    containsStr (OpenFoodFacts.LLM_prompt p "simple") "Not mentioned" = true ∧
    containsStr (OpenFoodFacts.LLM_prompt p "deeper") "Not mentioned" = true ∧
    containsStr (App2.LLM_prompt p "deeper") "Not mentioned" = true := by
  have he := dictGetD_eq_default p "ecoscore_grade" (PyVal.vstr "Not mentioned") h
  refine ⟨?_, ?_, ?_⟩
  · simp only [OpenFoodFacts.LLM_prompt, OpenFoodFacts.simpleTemplate, he, render_notMentioned,
      if_true]
    apply containsStr_append_left
    apply containsStr_append_left
    apply containsStr_append_left
    exact containsStr_append_self _ _
  · simp only [OpenFoodFacts.LLM_prompt, OpenFoodFacts.deeperTemplate, he, pyCond_notMentioned]
    rw [if_neg (by decide)]
    apply containsStr_append_left
    apply containsStr_append_left
    apply containsStr_append_left
    apply containsStr_append_left
    apply containsStr_append_left
    apply containsStr_append_left
    apply containsStr_append_left
    apply containsStr_append_left
    apply containsStr_append_left
    apply containsStr_append_left
    apply containsStr_append_left
    apply containsStr_append_left
    apply containsStr_append_left
    apply containsStr_append_left
    apply containsStr_append_left
    exact containsStr_append_self _ _
  · simp only [App2.LLM_prompt, he, render_notMentioned]
    rw [if_neg (by decide)]
    apply containsStr_append_left
    apply containsStr_append_left
    apply containsStr_append_left
    exact containsStr_append_self _ _

/-- Claim C1, witness: the amended statement instantiated at the empty
record, whose eco-score field is absent. -/
theorem c1_amended_witness :
    hasKey ([] : Product) "ecoscore_grade" = false ∧
    (containsStr (OpenFoodFacts.LLM_prompt [] "simple") "Not mentioned" = true ∧
      containsStr (OpenFoodFacts.LLM_prompt [] "deeper") "Not mentioned" = true ∧
      containsStr (App2.LLM_prompt [] "deeper") "Not mentioned" = true) :=
  ⟨rfl, c1_amended [] rfl⟩

/-- Claim C2, counterexample: a response whose body is not JSON makes
`get_data` of app3.py raise the ValueError of `response.json()` instead of
returning an empty list, and a non-success status makes `get_data` of
app2.py return a JSON error payload, not an empty list. -/
theorem c2_counterexample :
    App3.get_data (.response 200 (.error "Expecting value: line 1 column 1 (char 0)")) =
      .error (.valueError "Expecting value: line 1 column 1 (char 0)") ∧
    App2.get_data (.response 500 (.ok ⟨some []⟩)) =
      .errorPayload "Failed to fetch data from OpenFoodFacts API. Status code: 500" :=
  ⟨rfl, rfl⟩

/-- Claim C2, amended: only a successfully parsed body with a missing or
empty products list yields an empty result list (app3.py).  A non-JSON body
raises ValueError in app3.py; a body without a products key raises KeyError
in main.py; app2.py answers transport errors with a JSON error payload and a
successfully parsed keyless body with the empty product list. -/
theorem c2_amended (code : Nat) (data : SearchData) (msg : String)
    (h : data.productsField = none ∨ data.productsField = some []) :
    App3.get_data (.response code (.ok data)) = .ok [] ∧
    App3.get_data (.response code (.error msg)) = .error (.valueError msg) ∧
    MainPy.get_data (.response code (.ok ⟨none⟩)) = .error (.keyError "products") ∧
    App2.get_data (.transportError msg) =
      .errorPayload ("An error occurred: " ++ msg) ∧
    App2.get_data (.response 200 (.ok ⟨none⟩)) = .products [] := by
  refine ⟨?_, rfl, rfl, rfl, rfl⟩
  rcases h with h | h <;> simp [App3.get_data, h]

/-- Claim C2, witness: the amended statement instantiated at status 404, a
parsed body without a products key, and the message "boom". -/
theorem c2_amended_witness :
    ((⟨none⟩ : SearchData).productsField = none ∨
      (⟨none⟩ : SearchData).productsField = some []) ∧
    (App3.get_data (.response 404 (.ok ⟨none⟩)) = .ok [] ∧
      App3.get_data (.response 404 (.error "boom")) = .error (.valueError "boom") ∧
      MainPy.get_data (.response 404 (.ok ⟨none⟩)) = .error (.keyError "products") ∧
      App2.get_data (.transportError "boom") =
        .errorPayload ("An error occurred: " ++ "boom") ∧
      App2.get_data (.response 200 (.ok ⟨none⟩)) = .products []) :=
  ⟨Or.inl rfl, c2_amended 404 ⟨none⟩ "boom" (Or.inl rfl)⟩

/-- Claim C3, counterexample: `get_data` of main.py applies no name filter:
on a response whose products list holds one record without a product_name
field, it returns that record. -/
theorem c3_counterexample :
    MainPy.get_data (.response 200 (.ok ⟨some [[("brands", PyVal.vstr "BrandX")]]⟩)) =
      .ok [[("brands", PyVal.vstr "BrandX")]] ∧
    hasKey [("brands", PyVal.vstr "BrandX")] "product_name" = false :=
  ⟨rfl, by decide⟩

/-- Claim C3, amended: every successful search result has at most 5 records;
in app3.py every returned record additionally contains a product_name field,
while main.py applies no such filter and only guarantees the length bound. -/
theorem c3_amended (f1 f2 : FetchOutcome) (ps qs : List Product)
    (h3 : App3.get_data f1 = .ok ps) (hm : MainPy.get_data f2 = .ok qs) :
    ps.length ≤ 5 ∧ (∀ p ∈ ps, hasKey p "product_name" = true) ∧ qs.length ≤ 5 := by
  have hshape : ps = [] ∨
      ∃ ps0 : List Product,
        ps = (ps0.filter (fun p => hasKey p "product_name")).take 5 := by
    rcases f1 with msg | ⟨code, body⟩
    · simp [App3.get_data] at h3
    · rcases body with msg | data
      · simp [App3.get_data] at h3
      · rcases hd : data.productsField with _ | ps0
        · simp [App3.get_data, hd] at h3
          exact Or.inl h3
        · by_cases hl : ps0.length = 0
          · simp [App3.get_data, hd, hl] at h3
            exact Or.inl h3
          · simp [App3.get_data, hd, hl] at h3
            exact Or.inr ⟨ps0, h3.symm⟩
  have hqshape : ∃ qs0 : List Product, qs = qs0.take 5 := by
    rcases f2 with msg | ⟨code, body⟩
    · simp [MainPy.get_data] at hm
    · rcases body with msg | data
      · simp [MainPy.get_data] at hm
      · rcases hd : data.productsField with _ | qs0
        · simp [MainPy.get_data, hd] at hm
        · simp [MainPy.get_data, hd] at hm
          exact ⟨qs0, hm.symm⟩
  refine ⟨?_, ?_, ?_⟩
  · rcases hshape with h | ⟨ps0, h⟩ <;> subst h
    · simp
    · exact List.length_take_le 5 _
  · rcases hshape with h | ⟨ps0, h⟩ <;> subst h
    · intro p hp
      simp at hp
    · intro p hp
      have hp2 : p ∈ ps0.filter (fun r => hasKey r "product_name") :=
        List.mem_of_mem_take hp
      simpa using List.of_mem_filter hp2
  · obtain ⟨qs0, h⟩ := hqshape
    subst h
    exact List.length_take_le 5 _

/-- Claim C3, witness: the amended statement instantiated at a successful
response with an empty products list. -/
theorem c3_amended_witness :
    App3.get_data (.response 200 (.ok ⟨some []⟩)) = .ok [] ∧
    MainPy.get_data (.response 200 (.ok ⟨some []⟩)) = .ok [] ∧
    (([] : List Product).length ≤ 5 ∧
      (∀ p ∈ ([] : List Product), hasKey p "product_name" = true) ∧
      ([] : List Product).length ≤ 5) :=
  ⟨rfl, rfl,
    c3_amended (.response 200 (.ok ⟨some []⟩)) (.response 200 (.ok ⟨some []⟩)) [] [] rfl rfl⟩

/-- Claim C4, counterexample: `show_summary` of main.py indexes the result
list without a bounds check, so selecting index 0 when the search returned
no products raises IndexError instead of returning an error payload. -/
theorem c4_counterexample :
    MainPy.show_summary [] 0 "simple" (fun _ => .ok ⟨"ok"⟩) id =
      .error .indexError := rfl

/-- Claim C4, amended: for an out-of-range selected index, `show_summary` of
app2.py returns the plain error payload (also when no session result list
exists), while `show_summary` of main.py raises an uncaught IndexError. -/
theorem c4_amended (ps : List Product) (product_id : Nat) (tone : String)
    (gen : String → Except PyError GenResponse) (md : String → String)
    (h : product_id ≥ ps.length) :
    App2.show_summary (some ps) product_id tone gen md =
      .ok (.errorPayload "Product not found or invalid product ID.") ∧
    App2.show_summary none product_id tone gen md =
      .ok (.errorPayload "Product not found or invalid product ID.") ∧
    MainPy.show_summary ps product_id tone gen md = .error .indexError := by
  refine ⟨?_, rfl, ?_⟩
  · simp only [App2.show_summary]
    rw [dif_pos h]
  · simp only [MainPy.show_summary]
    rw [dif_neg (by omega)]

/-- Claim C4, witness: the amended statement instantiated at a one-record
result list and selected index 2. -/
theorem c4_amended_witness :
    2 ≥ ([[("product_name", PyVal.vstr "Oreo")]] : List Product).length ∧
    (App2.show_summary (some [[("product_name", PyVal.vstr "Oreo")]]) 2 "simple"
        (fun _ => .ok ⟨"s"⟩) id =
        .ok (.errorPayload "Product not found or invalid product ID.") ∧
      App2.show_summary none 2 "simple" (fun _ => .ok ⟨"s"⟩) id =
        .ok (.errorPayload "Product not found or invalid product ID.") ∧
      MainPy.show_summary [[("product_name", PyVal.vstr "Oreo")]] 2 "simple"
        (fun _ => .ok ⟨"s"⟩) id = .error .indexError) :=
  ⟨by decide,
    c4_amended [[("product_name", PyVal.vstr "Oreo")]] 2 "simple"
      (fun _ => .ok ⟨"s"⟩) id (by decide)⟩

/-- Claim C5: any error raised by the external generative-text call
propagates unchanged to the caller of `OpenFoodFacts.LLM` (src/main.py) and
of `LLM` (app2.py) — the generator contains no retry and converts or
catches nothing. -/
theorem c5_error_propagation (p : Product) (tone : String)
    (gen gen2 : String → Except PyError GenResponse) (e1 e2 : PyError)
    (h1 : gen (OpenFoodFacts.LLM_prompt p tone) = .error e1)
    (h2 : gen2 (App2.LLM_prompt p tone) = .error e2) :
    OpenFoodFacts.LLM p tone gen = .error e1 ∧ App2.LLM p tone gen2 = .error e2 := by
  constructor
  · unfold OpenFoodFacts.LLM
    rw [h1]
    rfl
  · unfold App2.LLM
    rw [h2]
    rfl

/-- Claim C5, witness: the propagation statement instantiated at the empty
record and a generation oracle that always raises an API error. -/
theorem c5_witness :
    (fun _ : String =>
        (Except.error (PyError.apiError "quota") : Except PyError GenResponse))
      (OpenFoodFacts.LLM_prompt [] "simple") = .error (PyError.apiError "quota") ∧
    (OpenFoodFacts.LLM [] "simple"
        (fun _ => .error (PyError.apiError "quota")) = .error (PyError.apiError "quota") ∧
      App2.LLM [] "simple"
        (fun _ => .error (PyError.apiError "quota")) = .error (PyError.apiError "quota")) :=
  ⟨rfl,
    c5_error_propagation [] "simple"
      (fun _ => .error (PyError.apiError "quota"))
      (fun _ => .error (PyError.apiError "quota"))
      (PyError.apiError "quota") (PyError.apiError "quota") rfl rfl⟩

/-- Claim C6: for every record, the simple-tone prompt of
`OpenFoodFacts.LLM` (src/main.py) requests the four sections — it contains
the literal substrings "Positive aspects", "Negative aspects",
"Health impact" and "Environmental impact" — and the simple-tone prompt of
app2.py's `LLM` contains "Positive aspects" and "Negative aspects" as
well. -/
theorem c6_simple_prompt_sections (p : Product) :
    containsStr (OpenFoodFacts.LLM_prompt p "simple") "Positive aspects" = true ∧
    containsStr (OpenFoodFacts.LLM_prompt p "simple") "Negative aspects" = true ∧
    containsStr (OpenFoodFacts.LLM_prompt p "simple") "Health impact" = true ∧
    containsStr (OpenFoodFacts.LLM_prompt p "simple") "Environmental impact" = true ∧
    containsStr (App2.LLM_prompt p "simple") "Positive aspects" = true ∧
    containsStr (App2.LLM_prompt p "simple") "Negative aspects" = true := by
  refine ⟨?_, ?_, ?_, ?_, ?_, ?_⟩ <;>
    simp only [OpenFoodFacts.LLM_prompt, OpenFoodFacts.simpleTemplate, App2.LLM_prompt,
      if_true] <;>
    exact containsStr_append_right _ _ _ (by decide)

/-- Claim C7: prompt assembly is deterministic — it is a function of the
fields the assembler reads and the tone alone, so two records that agree on
those fields (in particular, the same record twice) yield identical prompt
strings under every tone, in `OpenFoodFacts.LLM` (src/main.py) and in `LLM`
(app2.py). -/
theorem c7_prompt_deterministic (p q : Product) (tone : String)
    (hname : dictGetD p "product_name" (.vstr "Not mentioned") =
      dictGetD q "product_name" (.vstr "Not mentioned"))
    (hbrand : dictGetD p "brands" (.vstr "Not mentioned") =
      dictGetD q "brands" (.vstr "Not mentioned"))
    (hnutri : dictGetD p "nutriscore_grade" (.vstr "Not mentioned") =
      dictGetD q "nutriscore_grade" (.vstr "Not mentioned"))
    (heco : dictGetD p "ecoscore_grade" (.vstr "Not mentioned") =
      dictGetD q "ecoscore_grade" (.vstr "Not mentioned"))
    (hpack : dictGetD p "packaging" (.vstr "Not mentioned") =
      dictGetD q "packaging" (.vstr "Not mentioned"))
    (hingr : dictGetD p "ingredients_text" (.vstr "Not mentioned") =
      dictGetD q "ingredients_text" (.vstr "Not mentioned"))
    (hnutr : dictGetD p "nutrients_data" (.vstr "Not mentioned") =
      dictGetD q "nutrients_data" (.vstr "Not mentioned"))
    (hvit : dictGetD p "vitamins_tags" (.vstr "Not mentioned") =
      dictGetD q "vitamins_tags" (.vstr "Not mentioned"))
    (hkey : dictGetD p "_keywords" (.vstr "Not mentioned") =
      dictGetD q "_keywords" (.vstr "Not mentioned"))
    (hnova : dictGetD p "nova_groups_tags" (.vstr "Not mentioned") =
      dictGetD q "nova_groups_tags" (.vstr "Not mentioned")) :
    OpenFoodFacts.LLM_prompt p tone = OpenFoodFacts.LLM_prompt q tone ∧
    App2.LLM_prompt p tone = App2.LLM_prompt q tone := by
  constructor <;>
    simp only [OpenFoodFacts.LLM_prompt, App2.LLM_prompt, hname, hbrand, hnutri, heco,
      hpack, hingr, hnutr, hvit, hkey, hnova]

/-- Claim C7, witness: the determinism statement instantiated with the same
fully concrete record on both sides. -/
theorem c7_witness :
    OpenFoodFacts.LLM_prompt [("product_name", PyVal.vstr "Oreo")] "simple" =
      OpenFoodFacts.LLM_prompt [("product_name", PyVal.vstr "Oreo")] "simple" ∧
    App2.LLM_prompt [("product_name", PyVal.vstr "Oreo")] "simple" =
      App2.LLM_prompt [("product_name", PyVal.vstr "Oreo")] "simple" :=
  c7_prompt_deterministic _ _ "simple" rfl rfl rfl rfl rfl rfl rfl rfl rfl rfl

/-- Claim C8: on a successful response, the search result of app3.py and
sl.py is exactly the first 5 elements of the API's product list after the
name-field filter, in the API's order — the result is a sublist (an
order-preserving selection) of the returned list, of length at most 5. -/
theorem c8_search_truncation (code : Nat) (ps : List Product) :
    App3.get_data (.response code (.ok ⟨some ps⟩)) = .ok (specSearchSelect ps) ∧
    Sl.get_data (.response code (.ok ⟨some ps⟩)) = .ok (specSearchSelect ps) ∧
    List.Sublist (specSearchSelect ps) ps ∧
    (specSearchSelect ps).length ≤ 5 := by
  refine ⟨?_, ?_, ?_, ?_⟩
  · by_cases hl : ps.length = 0
    · have hnil : ps = [] := List.eq_nil_of_length_eq_zero hl
      subst hnil
      simp [App3.get_data, specSearchSelect]
    · simp [App3.get_data, hl, specSearchSelect]
  · by_cases hl : ps.length = 0
    · have hnil : ps = [] := List.eq_nil_of_length_eq_zero hl
      subst hnil
      simp [Sl.get_data, specSearchSelect]
    · simp [Sl.get_data, hl, specSearchSelect]
  · exact List.Sublist.trans (List.take_sublist _ _) (List.filter_sublist _)
  · exact List.length_take_le 5 _

/-- Claim C9: records are not mutated by field extraction or prompt
assembly: in the state-passing embeddings, which thread the record through
every read the source performs, the record after the call equals the record
before it, and the computed result agrees with the direct embedding. -/
theorem c9_records_not_mutated (p : Product) (tone : String) :
    (OpenFoodFacts.product_info_extraction_st p).2 = p ∧
    (OpenFoodFacts.product_info_extraction_st p).1 = OpenFoodFacts.product_info_extraction p ∧
    (OpenFoodFacts.LLM_prompt_st p tone).2 = p ∧
    (OpenFoodFacts.LLM_prompt_st p tone).1 = OpenFoodFacts.LLM_prompt p tone ∧
    (Sl.generate_summary_prompt_st p tone).2 = p ∧
    (Sl.generate_summary_prompt_st p tone).1 = Sl.generate_summary_prompt p tone :=
  ⟨rfl, rfl, rfl, rfl, rfl, rfl⟩

/-- Claim C10: tone dispatch is an exact, case-sensitive comparison with
"simple": every other tone string — "Simple", "deeper", "in-depth", or
anything else — selects the deeper (else) template in `OpenFoodFacts.LLM`
(src/main.py) and in `LLM` (app2.py), and "simple" selects the simple
template. -/
theorem c10_tone_dispatch (p : Product) (tone : String) (h : tone ≠ "simple") :
    OpenFoodFacts.LLM_prompt p tone = OpenFoodFacts.deeperPromptOf p ∧
    App2.LLM_prompt p tone = App2.deeperPromptOf p ∧
    OpenFoodFacts.LLM_prompt p "simple" = OpenFoodFacts.simplePromptOf p := by
  refine ⟨?_, ?_, ?_⟩
  · simp only [OpenFoodFacts.LLM_prompt, OpenFoodFacts.deeperPromptOf, if_neg h]
  · simp only [App2.LLM_prompt, App2.deeperPromptOf, if_neg h]
  · simp only [OpenFoodFacts.LLM_prompt, OpenFoodFacts.simplePromptOf, if_true]

/-- Claim C10, witness: the dispatch statement instantiated at the tone
"Simple", which differs from "simple" only in case and still selects the
deeper template. -/
theorem c10_witness :
    ("Simple" : String) ≠ "simple" ∧
    (OpenFoodFacts.LLM_prompt [] "Simple" = OpenFoodFacts.deeperPromptOf [] ∧
      App2.LLM_prompt [] "Simple" = App2.deeperPromptOf [] ∧
      OpenFoodFacts.LLM_prompt [] "simple" = OpenFoodFacts.simplePromptOf []) :=
  ⟨by decide, c10_tone_dispatch [] "Simple" (by decide)⟩
